import Mathlib

/-!
# mongotape `op.go`: operations, the driver-op filter and the unknown-opcode error

A shallow embedding of `src/op.go`.

* `OpMetadata`, `replyContainer`, `ErrUnknownOpcode`, `ErrUnknownOpcode.Error` and
  `IsDriverOp` are translated from `op.go`.
* `op.go` only declares the `Op` interface.  The concrete operation types, the helper
  `extractOpType`, the `Meta` and `Execute` methods and the decode dispatch live in other
  files of the package.  `IsDriverOp` takes `extractOpType` as an argument; the other
  absent parts are modelled from the specification and are marked as such.
-/

set_option linter.dupNamespace false

namespace Mongotape

/-! ## Data model -/

/-- A BSON element value (the package `bson` is an external library; only the shape of a
document matters to the code embedded here). -/
inductive Value where
  | int (n : Int)
  | str (s : String)
  | bool (b : Bool)
  | null
  | doc (fields : List (String × Value))
  | arr (items : List Value)

/-- An ordered BSON document: the list of its elements, leading key first. -/
abbrev Document := List (String × Value)

/-- The struct `OpMetadata` of `op.go`; `Data` is the payload of the operation. -/
structure OpMetadata where
  Op : String
  Ns : String
  Command : String
  Data : Document

/-- Modelled from the spec: the fixed message header (message length, request id,
response-to, opcode); the type `MsgHeader` is declared outside `op.go`. -/
structure MsgHeader where
  MessageLength : Int
  RequestID : Int
  ResponseTo : Int
  OpCode : Int
deriving DecidableEq

/-- Modelled from the spec: the wire fields of a query message (flags, namespace string,
skip and return counts, payload document, field selector).  `op.go` reads the payload as
`query.QueryOp.Query`, so the payload is the field `Query` of the embedded struct. -/
structure MgoQueryOp where
  Flags : Nat
  Collection : String
  Skip : Int
  Limit : Int
  Query : Document
  Selector : Document

/-- Modelled from the spec: the Query-shaped operation, a header around the embedded wire
struct (the type `QueryOp` is declared outside `op.go`). -/
structure QueryOp where
  Header : MsgHeader
  QueryOp : MgoQueryOp

/-- Modelled from the spec: the operation variants other than Query. -/
inductive OpKind where
  | Reply
  | Command
  | CommandReply
  | Insert
  | Update
  | Delete
  | GetMore
  | KillCursors
  | Unlisted (code : Int)
deriving DecidableEq

/-- Modelled from the spec: what the metadata extractor needs of an operation that is not
Query-shaped: its namespace (empty when not applicable), the command name it carries (for
the command shape) and its payload. -/
structure PlainOp where
  Header : MsgHeader
  Kind : OpKind
  Ns : String
  CommandName : String
  Payload : Document

/-- A value of the interface type `Op` of `op.go`.  A Go interface value is either the nil
interface or a dynamic type with a value; the dynamic types are pointers (`*QueryOp` and
the pointers to the other variants), and a pointer may itself be nil. -/
inductive Op where
  | nil
  | query (ptr : Option QueryOp)
  | plain (ptr : Option PlainOp)

/-- Run-time faults of the embedded code. -/
inductive Fault where
  | nilDereference
deriving DecidableEq

/-! ## The driver-op filter -/

/-- The command names of the `switch` in `IsDriverOp`, in source order. -/
def driverCommands : List String :=
  ["isMaster", "ismaster", "getnonce", "ping", "saslStart", "saslContinue"]

/-- The function `IsDriverOp` of `op.go`.  `extractOpType` is defined outside `op.go` and is
an argument here; a Lean function is total, which is the case where `extractOpType`
returns normally.  The type assertion `op.(*QueryOp)` fails on the nil interface and on
every other dynamic type; it succeeds on a nil `*QueryOp`, and the field access
`query.QueryOp.Query` then dereferences nil. -/
def IsDriverOp (extractOpType : Document → String × String) (op : Op) : Except Fault Bool :=
  match op with
  | .nil => .ok false
  | .plain _ => .ok false
  | .query none => .error .nilDereference
  | .query (some query) =>
    let (opType, commandType) := extractOpType query.QueryOp.Query
    if opType ≠ "command" then .ok false
    else
      match commandType with
      | "isMaster" | "ismaster" => .ok true
      | "getnonce" => .ok true
      | "ping" => .ok true
      | "saslStart" => .ok true
      | "saslContinue" => .ok true
      | _ => .ok false

/-! ## The unknown-opcode error -/

/-- The type `ErrUnknownOpcode` of `op.go`, an `int` under a new name.  The conversion
`ErrUnknownOpcode(v)` is the constructor and the conversion back `int(e)` is `code`.  The
values of a Go `int` are a range of the integers and `op.go` does no arithmetic on the
code, so the code is an `Int`. -/
structure ErrUnknownOpcode where
  code : Int
deriving DecidableEq

/-- The digit byte `'0' + d` that `fmt` writes for a decimal digit `d`. -/
def digitChar (d : Nat) : Char := Char.ofNat (48 + d)

/-- The base-10 loop of the verb `%d`: the buffer is filled from the right, one digit per
division by ten, and the last digit is written when `u < 10`. -/
def fmtDigits (u : Nat) (buf : List Char) : List Char :=
  if 10 ≤ u then fmtDigits (u / 10) (digitChar (u - (u / 10) * 10) :: buf)
  else digitChar u :: buf
termination_by u
decreasing_by omega

/-- The verb `%d` on a signed integer: the digits of the magnitude, after a minus sign when
the value is negative (on the least 64-bit value the negation of `fmt` wraps to the
magnitude, which is what `natAbs` gives). -/
def fmtInteger (v : Int) : List Char :=
  if v < 0 then '-' :: fmtDigits v.natAbs [] else fmtDigits v.natAbs []

/-- The method `Error` of `ErrUnknownOpcode`: `fmt.Sprintf("Unknown opcode %d", e)`. -/
def ErrUnknownOpcode.Error (e : ErrUnknownOpcode) : String :=
  "Unknown opcode " ++ String.mk (fmtInteger e.code)

/-- The character that stands for a decimal digit. -/
def decimalDigit (d : Nat) : Char := "0123456789".toList.getD d '0'

/-- The base-10 rendering of an integer in the words of the specification: the decimal
digits of the magnitude, most significant first (the single digit zero for zero), after a
minus sign when the integer is negative. -/
def decimalRendering (v : Int) : List Char :=
  let digits := if v = 0 then ['0'] else (Nat.digits 10 v.natAbs).reverse.map decimalDigit
  if v < 0 then '-' :: digits else digits

/-- Reads a run of decimal digit bytes back as a number (used to show that a message
determines its code). -/
def readDigits (cs : List Char) : Nat :=
  cs.foldl (fun acc c => 10 * acc + (c.toNat - 48)) 0

/-- Reads a rendering back as an integer: a leading minus sign negates the digits. -/
def readInteger (cs : List Char) : Int :=
  match cs with
  | '-' :: rest => - (readDigits rest : Int)
  | _ => (readDigits cs : Int)

/-! ## The reply container -/

/-- Modelled from the spec: the legacy-shaped reply (the type `ReplyOp` is declared outside
`op.go`). -/
structure ReplyOp where
  Header : MsgHeader
  CursorId : Int
  Docs : List Document

/-- Modelled from the spec: the command-shaped reply (the type `CommandReplyOp` is declared
outside `op.go`). -/
structure CommandReplyOp where
  Header : MsgHeader
  CommandReply : Document
  OutputDocs : List Document

/-- The struct `replyContainer` of `op.go`: two embedded pointers, each possibly nil, and
the latency (a `time.Duration`, a count of nanoseconds). -/
structure replyContainer where
  CommandReplyOp : Option CommandReplyOp
  ReplyOp : Option ReplyOp
  Latency : Int

/-- Modelled from the spec: the response of the target database, in the shape it actually
returned. -/
inductive ServerResponse where
  | legacy (r : ReplyOp)
  | command (r : CommandReplyOp)

/-- Modelled from the spec: the external session, which performs the network round trip
for an operation and either fails with an error or yields the response together with the
time measured around the blocking call. -/
abbrev Session := Op → Except String (ServerResponse × Int)

/-- Modelled from the spec: the `Execute` methods of the operation variants, which are not
part of `op.go` (it only declares `Execute(*mgo.Session) (replyContainer, error)`).  The
action is issued through the session; a failure is surfaced verbatim beside the zero
container; otherwise the container holds the response in the shape returned, plus the
measured latency. -/
def Execute (session : Session) (op : Op) : replyContainer × Option String :=
  match session op with
  | .error err => ({ CommandReplyOp := none, ReplyOp := none, Latency := 0 }, some err)
  | .ok (.legacy r, elapsed) =>
    ({ CommandReplyOp := none, ReplyOp := some r, Latency := elapsed }, none)
  | .ok (.command r, elapsed) =>
    ({ CommandReplyOp := some r, ReplyOp := none, Latency := elapsed }, none)

/-! ## Decode dispatch -/

/-- The errors surfaced by decoding: the value `ErrNotMsg` of `op.go` and the unknown-opcode
error. -/
inductive DecodeError where
  | ErrNotMsg
  | unknownOpcode (e : ErrUnknownOpcode)
deriving DecidableEq

/-- The bytes that follow the message header. -/
abbrev Bytes := List (Fin 256)

/-- Modelled from the spec: the opcode registry, a table from a wire opcode to the
constructor and populate step of the matching variant.  The populate step yields no
operation when the bytes are exhausted before the required fields are read. -/
abbrev Registry := List (Int × (Bytes → Option Op))

/-- Modelled from the spec: decode dispatch, which is not part of `op.go`.  It selects the
variant registered for the opcode and runs its populate step; it returns the populated
operation, or the unknown-opcode error carrying the input code when no variant is
registered, or the not-a-message error when the populate step runs out of bytes. -/
def decodeDispatch (registry : Registry) (opcode : Int) (source : Bytes) :
    Except DecodeError Op :=
  match registry.lookup opcode with
  | none => .error (.unknownOpcode (ErrUnknownOpcode.mk opcode))
  | some populate =>
    match populate source with
    | none => .error .ErrNotMsg
    | some op => .ok op

/-! ## Metadata extraction -/

/-- Modelled from the spec: the tables the metadata extractor consults.  The specification
leaves their contents open: which leading keys name a known database command, which name a
write command (whose logical name is the key itself), the logical name of a query that is
not reclassified, and the logical name of every other wire shape. -/
structure NameTable where
  knownCommand : String → Bool
  writeCommand : String → Bool
  queryName : String
  shapeName : OpKind → String

/-- Modelled from the spec: the helper `extractOpType`, which is not part of `op.go`: a pure
function from a document to a kind and a command name that inspects the leading key.  A
leading key that names a write command gives that logical name and no command name; a
leading key that names a known database command gives the kind "command" with that key as
the command name. -/
def extractOpType (t : NameTable) (doc : Document) : String × String :=
  match doc with
  | [] => (t.queryName, "")
  | (key, _) :: _ =>
    if t.writeCommand key then (key, "")
    else if t.knownCommand key then ("command", key)
    else (t.queryName, "")

/-- Modelled from the spec: the method `Meta` of a Query-shaped operation, which is not part
of `op.go`: the kind and the command name extracted from the payload, the namespace and
the payload. -/
def QueryOp.Meta (t : NameTable) (q : Mongotape.QueryOp) : OpMetadata :=
  let (opType, commandType) := extractOpType t q.QueryOp.Query
  { Op := opType
    Ns := q.QueryOp.Collection
    Command := commandType
    Data := q.QueryOp.Query }

/-- Modelled from the spec: the method `Meta` of the other operation variants, which is not
part of `op.go`: the logical name of the shape, the namespace, the command name when the
logical name is "command", and the payload. -/
def PlainOp.Meta (t : NameTable) (o : PlainOp) : OpMetadata :=
  { Op := t.shapeName o.Kind
    Ns := o.Ns
    Command := if t.shapeName o.Kind = "command" then o.CommandName else ""
    Data := o.Payload }

/-- Modelled from the spec: the call `op.Meta()` on an interface value.  The nil interface
and a nil pointer have no operation to describe. -/
def Op.Meta (t : NameTable) (op : Op) : Except Fault OpMetadata :=
  match op with
  | .nil => .error .nilDereference
  | .query none => .error .nilDereference
  | .query (some q) => .ok (q.Meta t)
  | .plain none => .error .nilDereference
  | .plain (some o) => .ok (o.Meta t)

/-! ## Concrete values used by the witnesses -/

/-- A name table: the driver commands are known commands, the write commands are
"insert", "update" and "delete". -/
def sampleTable : NameTable :=
  { knownCommand := fun key => decide (key ∈ driverCommands)
    writeCommand := fun key => decide (key ∈ ["insert", "update", "delete"])
    queryName := "query"
    shapeName := fun k =>
      match k with
      | .Insert => "insert"
      | .Update => "update"
      | .Command => "command"
      | _ => "other" }

/-- A header with the given request id and the opcode of the query shape. -/
def sampleHeader (requestID : Int) : MsgHeader :=
  { MessageLength := 58, RequestID := requestID, ResponseTo := 0, OpCode := 2004 }

/-- The Query-shaped operation on "test.coll" with the payload `ismaster: 1`. -/
def ismasterQuery : QueryOp :=
  { Header := sampleHeader 1
    QueryOp :=
      { Flags := 0, Collection := "test.coll", Skip := 0, Limit := -1,
        Query := [("ismaster", .int 1)], Selector := [] } }

/-- The same payload on another namespace, with other flags, counts, selector and
transport fields. -/
def ismasterQueryElsewhere : QueryOp :=
  { Header := sampleHeader 77
    QueryOp :=
      { Flags := 4, Collection := "admin.$cmd", Skip := 3, Limit := 10,
        Query := [("ismaster", .int 1)], Selector := [("ok", .int 1)] } }

/-- A Query-shaped operation whose query document is empty. -/
def emptyQuery : QueryOp :=
  { Header := sampleHeader 2
    QueryOp :=
      { Flags := 0, Collection := "test.coll", Skip := 0, Limit := 0,
        Query := [], Selector := [] } }

/-- An Insert-shaped operation whose payload names a driver command. -/
def pingInsert : PlainOp :=
  { Header := sampleHeader 3, Kind := .Insert, Ns := "test.coll", CommandName := "",
    Payload := [("ping", .int 1)] }

/-- A registry with the query shape only; its populate step needs at least one byte. -/
def sampleRegistry : Registry :=
  [(2004, fun source => if source.isEmpty then none else some (Op.query (some emptyQuery)))]

/-! ## Theorems: the driver-op filter -/

/-- The body of `IsDriverOp` after the type assertion has succeeded on a non-nil pointer:
the answer is decided by the pair that `extractOpType` returns. -/
theorem IsDriverOp_query_eq (extract : Document → String × String) (q : QueryOp) :
    IsDriverOp extract (Op.query (some q)) =
      Except.ok (decide ((extract q.QueryOp.Query).1 = "command" ∧
        (extract q.QueryOp.Query).2 ∈
          ["isMaster", "ismaster", "getnonce", "ping", "saslStart", "saslContinue"])) := by
  simp only [IsDriverOp]
  generalize extract q.QueryOp.Query = p
  obtain ⟨opType, commandType⟩ := p
  by_cases hc : opType = "command"
  · subst hc
    simp only [ne_eq, not_true_eq_false, if_false, true_and]
    split <;> simp_all
  · simp [hc]

/-- C1: for a Query-shaped operation `q`, `IsDriverOp` answers true if and only if
`extractOpType` applied to the query document of `q` returns the classification "command"
together with one of the six names "isMaster", "ismaster", "getnonce", "ping",
"saslStart", "saslContinue"; in every other case it answers false. -/
theorem IsDriverOp_query_iff (extract : Document → String × String) (q : QueryOp) :
    (IsDriverOp extract (Op.query (some q)) = Except.ok true ↔
      ((extract q.QueryOp.Query).1 = "command" ∧
        (extract q.QueryOp.Query).2 ∈
          ["isMaster", "ismaster", "getnonce", "ping", "saslStart", "saslContinue"])) ∧
    (IsDriverOp extract (Op.query (some q)) = Except.ok false ↔
      ¬ ((extract q.QueryOp.Query).1 = "command" ∧
        (extract q.QueryOp.Query).2 ∈
          ["isMaster", "ismaster", "getnonce", "ping", "saslStart", "saslContinue"])) := by
  rw [IsDriverOp_query_eq]
  constructor
  · constructor
    · intro h
      exact of_decide_eq_true (Except.ok.inj h)
    · intro h
      rw [decide_eq_true h]
  · constructor
    · intro h
      exact of_decide_eq_false (Except.ok.inj h)
    · intro h
      rw [decide_eq_false h]

/-- C2: on every operation that is not Query-shaped, and on the nil interface,
`IsDriverOp` answers false, whatever the operation holds and whatever `extractOpType`
would make of its payload. -/
theorem IsDriverOp_not_query (extract : Document → String × String) :
    (∀ ptr : Option PlainOp, IsDriverOp extract (Op.plain ptr) = Except.ok false) ∧
    IsDriverOp extract Op.nil = Except.ok false :=
  ⟨fun _ => rfl, rfl⟩

/-- C8: two Query-shaped operations with the same query document get the same answer from
`IsDriverOp`, whatever their headers, namespaces, flags, counts and selectors are. -/
theorem IsDriverOp_depends_on_query_only (extract : Document → String × String)
    (q₁ q₂ : QueryOp) (h : q₁.QueryOp.Query = q₂.QueryOp.Query) :
    IsDriverOp extract (Op.query (some q₁)) = IsDriverOp extract (Op.query (some q₂)) := by
  rw [IsDriverOp_query_eq, IsDriverOp_query_eq, h]

/-- A witness of C8: the payload `ismaster: 1` on two namespaces, with different flags,
counts, selectors and request ids. -/
theorem IsDriverOp_depends_on_query_only_witness :
    ismasterQuery.QueryOp.Query = ismasterQueryElsewhere.QueryOp.Query ∧
    ismasterQuery.QueryOp.Collection ≠ ismasterQueryElsewhere.QueryOp.Collection ∧
    ismasterQuery.Header ≠ ismasterQueryElsewhere.Header ∧
    IsDriverOp (extractOpType sampleTable) (Op.query (some ismasterQuery)) =
      IsDriverOp (extractOpType sampleTable) (Op.query (some ismasterQueryElsewhere)) :=
  ⟨rfl, by decide, by decide,
    IsDriverOp_depends_on_query_only (extractOpType sampleTable) ismasterQuery
      ismasterQueryElsewhere rfl⟩

/-- C10, as stated, fails: a nil `*QueryOp` held in the interface passes the type assertion
and the read of its query document faults, so no boolean is returned. -/
theorem IsDriverOp_nil_pointer_faults :
    IsDriverOp (extractOpType sampleTable) (Op.query none) = Except.error Fault.nilDereference ∧
    ¬ ∃ b : Bool, IsDriverOp (extractOpType sampleTable) (Op.query none) = Except.ok b := by
  refine ⟨rfl, ?_⟩
  rintro ⟨b, hb⟩
  cases hb

/-- C10, amended: on every `Op` value other than a nil `*QueryOp` (the nil interface, every
operation that is not Query-shaped, every non-nil Query-shaped operation, an empty query
document included) `IsDriverOp` returns a boolean and does not fault, for every
`extractOpType` that returns. -/
theorem IsDriverOp_total (extract : Document → String × String) (op : Op)
    (h : op ≠ Op.query none) : ∃ b : Bool, IsDriverOp extract op = Except.ok b := by
  match op, h with
  | .nil, _ => exact ⟨false, rfl⟩
  | .plain _, _ => exact ⟨false, rfl⟩
  | .query none, h => exact absurd rfl h
  | .query (some q), _ => exact ⟨_, IsDriverOp_query_eq extract q⟩

/-- A witness of C10, amended: a Query-shaped operation whose query document is empty. -/
theorem IsDriverOp_total_witness :
    Op.query (some emptyQuery) ≠ Op.query none ∧
    emptyQuery.QueryOp.Query = [] ∧
    ∃ b : Bool, IsDriverOp (extractOpType sampleTable) (Op.query (some emptyQuery)) =
      Except.ok b :=
  ⟨by simp, rfl,
    IsDriverOp_total (extractOpType sampleTable) (Op.query (some emptyQuery)) (by simp)⟩

/-! ## Theorems: the unknown-opcode error -/

/-- The byte of a decimal digit is the code of zero plus the digit. -/
theorem digitChar_toNat (d : Nat) (hd : d < 10) : (digitChar d).toNat = 48 + d := by
  interval_cases d <;> rfl

/-- The byte `'0' + d` is the character that stands for the digit `d`. -/
theorem digitChar_eq_decimalDigit (d : Nat) (hd : d < 10) : digitChar d = decimalDigit d := by
  interval_cases d <;> rfl

/-- The byte of a decimal digit is not the minus sign. -/
theorem digitChar_ne_minus (d : Nat) (hd : d < 10) : digitChar d ≠ '-' := by
  interval_cases d <;> decide

/-- The loop writes a digit first. -/
theorem fmtDigits_head (u : Nat) : ∀ buf : List Char,
    ∃ d rest, d < 10 ∧ fmtDigits u buf = digitChar d :: rest := by
  induction u using Nat.strong_induction_on with
  | _ u ih =>
    intro buf
    rw [fmtDigits]
    split
    · exact ih (u / 10) (by omega) _
    · exact ⟨u, buf, by omega, rfl⟩

/-- The loop writes the decimal digits of a positive number, most significant first, in
front of the buffer. -/
theorem fmtDigits_eq_digits (u : Nat) : ∀ buf : List Char, 0 < u →
    fmtDigits u buf = (Nat.digits 10 u).reverse.map digitChar ++ buf := by
  induction u using Nat.strong_induction_on with
  | _ u ih =>
    intro buf hu
    rw [fmtDigits]
    split
    · rw [ih (u / 10) (by omega) _ (by omega), Nat.digits_def' (by norm_num) hu]
      have hmod : u - u / 10 * 10 = u % 10 := by omega
      simp [hmod]
    · rw [Nat.digits_of_lt 10 u (by omega) (by omega)]
      rfl

/-- Reading back what the loop wrote continues from the number written. -/
theorem foldl_fmtDigits (u : Nat) : ∀ buf : List Char,
    (fmtDigits u buf).foldl (fun acc c => 10 * acc + (c.toNat - 48)) 0 =
      buf.foldl (fun acc c => 10 * acc + (c.toNat - 48)) u := by
  induction u using Nat.strong_induction_on with
  | _ u ih =>
    intro buf
    rw [fmtDigits]
    split
    · rw [ih (u / 10) (by omega) _, List.foldl_cons,
        digitChar_toNat (u - u / 10 * 10) (by omega)]
      congr 1
      omega
    · rw [List.foldl_cons, digitChar_toNat u (by omega)]
      congr 1
      omega

/-- The digits of a number read back as that number. -/
theorem readDigits_fmtDigits (u : Nat) : readDigits (fmtDigits u []) = u := by
  unfold readDigits
  rw [foldl_fmtDigits]
  rfl

/-- A rendering reads back as the integer rendered. -/
theorem readInteger_fmtInteger (v : Int) : readInteger (fmtInteger v) = v := by
  unfold fmtInteger
  split
  · simp only [readInteger, readDigits_fmtDigits]
    omega
  · obtain ⟨d, rest, hd, hrest⟩ := fmtDigits_head v.natAbs []
    have hread := readDigits_fmtDigits v.natAbs
    rw [hrest] at hread ⊢
    have hne := digitChar_ne_minus d hd
    unfold readInteger
    split
    · rename_i heq
      exact absurd (List.cons.inj heq).1 hne
    · rw [hread]
      omega

/-- The verb `%d` produces the base-10 rendering. -/
theorem fmtInteger_eq_decimalRendering (v : Int) : fmtInteger v = decimalRendering v := by
  unfold fmtInteger decimalRendering
  by_cases h0 : v = 0
  · subst h0
    rw [fmtDigits]
    simp [digitChar]
  · have hpos : 0 < v.natAbs := Int.natAbs_pos.mpr h0
    have hmap : (Nat.digits 10 v.natAbs).reverse.map digitChar =
        (Nat.digits 10 v.natAbs).reverse.map decimalDigit := by
      apply List.map_congr_left
      intro d hd
      exact digitChar_eq_decimalDigit d
        (Nat.digits_lt_base (by norm_num) (List.mem_reverse.mp hd))
    simp only [h0, if_false, fmtDigits_eq_digits _ _ hpos, List.append_nil, hmap]

/-- The message of an unknown-opcode error determines the characters after its fixed
text. -/
theorem Error_inj_chars (v w : Int)
    (h : (ErrUnknownOpcode.mk v).Error = (ErrUnknownOpcode.mk w).Error) :
    fmtInteger v = fmtInteger w := by
  unfold ErrUnknownOpcode.Error at h
  have hdata := congrArg String.data h
  simp only [String.data_append] at hdata
  exact List.append_cancel_left hdata

/-- C4: the unknown-opcode error built from an integer `v` carries `v`: its message is the
text "Unknown opcode " followed by the base-10 rendering of `v`, with a leading minus sign
when `v` is negative, and converting the error back to an integer yields `v`. -/
theorem ErrUnknownOpcode_carries_code (v : Int) :
    (ErrUnknownOpcode.mk v).Error = "Unknown opcode " ++ String.mk (decimalRendering v) ∧
    (ErrUnknownOpcode.mk v).code = v := by
  refine ⟨?_, rfl⟩
  unfold ErrUnknownOpcode.Error
  rw [fmtInteger_eq_decimalRendering]

/-- C9: the messages of two unknown-opcode errors are equal if and only if their codes are
equal. -/
theorem ErrUnknownOpcode_message_identifies_code (v w : Int) :
    (ErrUnknownOpcode.mk v).Error = (ErrUnknownOpcode.mk w).Error ↔ v = w := by
  constructor
  · intro h
    have hchars := Error_inj_chars v w h
    have hread := congrArg readInteger hchars
    rwa [readInteger_fmtInteger, readInteger_fmtInteger] at hread
  · intro h
    rw [h]

/-! ## Theorems: decode dispatch -/

/-- C3: decode dispatch on an opcode `v` that is not in the registry returns the
unknown-opcode error whose code is `v`, whatever the bytes are. -/
theorem decodeDispatch_unregistered (registry : Registry) (v : Int) (source : Bytes)
    (h : registry.lookup v = none) :
    decodeDispatch registry v source =
      Except.error (DecodeError.unknownOpcode (ErrUnknownOpcode.mk v)) ∧
    (∀ e, decodeDispatch registry v source = Except.error (DecodeError.unknownOpcode e) →
      e.code = v) ∧
    (∀ op, decodeDispatch registry v source ≠ Except.ok op) := by
  have hd : decodeDispatch registry v source =
      Except.error (DecodeError.unknownOpcode (ErrUnknownOpcode.mk v)) := by
    unfold decodeDispatch
    rw [h]
  refine ⟨hd, ?_, ?_⟩
  · intro e he
    rw [hd] at he
    cases he
    rfl
  · intro op hop
    rw [hd] at hop
    cases hop

/-- A witness of C3: the registry holds the query shape only, and the opcode is 9999. -/
theorem decodeDispatch_unregistered_witness :
    sampleRegistry.lookup 9999 = none ∧
    decodeDispatch sampleRegistry 9999 [1, 2, 3] =
      Except.error (DecodeError.unknownOpcode (ErrUnknownOpcode.mk 9999)) :=
  ⟨rfl, (decodeDispatch_unregistered sampleRegistry 9999 [1, 2, 3] rfl).1⟩

/-! ## Theorems: the reply container -/

/-- C5: the container returned by `Execute` never holds both replies, and it holds neither
exactly when the execution failed; so after an execution that did not fail it holds
exactly one. -/
theorem Execute_holds_one_reply (session : Session) (op : Op) :
    ¬ ((Execute session op).1.CommandReplyOp.isSome = true ∧
        (Execute session op).1.ReplyOp.isSome = true) ∧
    (((Execute session op).1.CommandReplyOp.isNone = true ∧
        (Execute session op).1.ReplyOp.isNone = true) ↔
      (Execute session op).2.isSome = true) := by
  unfold Execute
  rcases session op with err | ⟨resp, elapsed⟩
  · simp
  · cases resp <;> simp

/-! ## Theorems: metadata extraction -/

/-- The command name that `extractOpType` returns is blank unless the kind is "command". -/
theorem extractOpType_command_blank (t : NameTable) (doc : Document)
    (h : (extractOpType t doc).1 ≠ "command") : (extractOpType t doc).2 = "" := by
  unfold extractOpType at h ⊢
  split
  · rfl
  · split
    · rfl
    · split
      · rename_i hw hk
        simp [hw, hk] at h
      · rfl

/-- C7: in the metadata produced for an operation the command name is blank whenever the
logical name is not "command". -/
theorem Meta_command_only_for_command (t : NameTable) (op : Op) (m : OpMetadata)
    (hm : Op.Meta t op = Except.ok m) (hop : m.Op ≠ "command") : m.Command = "" := by
  match op, hm with
  | .query (some q), hm =>
    have hq : q.Meta t = m := Except.ok.inj hm
    subst hq
    exact extractOpType_command_blank t q.QueryOp.Query hop
  | .plain (some o), hm =>
    have ho : o.Meta t = m := Except.ok.inj hm
    subst ho
    simp only [PlainOp.Meta] at hop ⊢
    rw [if_neg hop]

/-- A witness of C7: the metadata of an Insert-shaped operation. -/
theorem Meta_command_only_for_command_witness :
    Op.Meta sampleTable (Op.plain (some pingInsert)) =
      Except.ok (pingInsert.Meta sampleTable) ∧
    (pingInsert.Meta sampleTable).Op ≠ "command" ∧
    (pingInsert.Meta sampleTable).Command = "" :=
  ⟨rfl, by decide,
    Meta_command_only_for_command sampleTable (Op.plain (some pingInsert))
      (pingInsert.Meta sampleTable) rfl (by decide)⟩

end Mongotape
